import Mathlib

/-!
Verification of the response-normalization core of `horizon_fetcher.py`
(`writer-tools` repository).

The Python functions under study are pure given their input string, so they
are shallowly embedded as Lean functions.  The argument `response_json : str`
is represented by the outcome of `json.loads` on it: `Except.error ()` for a
string that is not valid JSON (`json.JSONDecodeError`), `Except.ok j` for a
string parsing to the JSON document `j`.  Python's dynamic indexing,
membership test and iteration are embedded by total functions returning
`Except PyErr _`, mirroring exactly which exception each operation raises on
each runtime type; the `try/except (KeyError, IndexError, json.JSONDecodeError)`
wrapper of the source is the `handle` function below, which recovers those
three exception classes and lets every other exception (`TypeError`) escape.
-/

namespace HorizonFetcher

/-- A JSON value as produced by `json.loads`.  Numbers are collapsed to `Int`:
the source code never reads a numeric value out of the document (numbers are
unindexable, uniterable, and never equal to a string under Python `==`), so
the distinction between ints and floats is invisible to every operation the
embedded code performs. -/
inductive Json where
  | null
  | bool (b : Bool)
  | num (n : Int)
  | str (s : String)
  | arr (elems : List Json)
  | obj (fields : List (String × Json))

/-- The Python exception classes that the embedded operations can raise.
`keyError k` is `KeyError(k)` from indexing a dict without the key,
`typeError` is `TypeError` from an ill-typed indexing / membership /
iteration / regex operation, `jsonDecodeError` is `json.JSONDecodeError`
from `json.loads`.  (`IndexError`, though listed in the source's `except`
clause, cannot arise: the code performs no integer indexing.) -/
inductive PyErr where
  | keyError (key : String)
  | typeError
  | jsonDecodeError
  deriving DecidableEq

/-- First binding of a key in an association list (a Python dict parsed from
JSON has no duplicate keys, so first = only). -/
def lookupField (k : String) : List (String × Json) → Option Json
  | [] => none
  | (k', v) :: rest => if k' = k then some v else lookupField k rest

/-- Python `v[k]` for a string key `k`: dict lookup (`KeyError` when absent);
every other runtime type (`list`, `str`, `int`, `float`, `bool`, `None`)
raises `TypeError` when indexed with a string key. -/
def pyGetItem (v : Json) (k : String) : Except PyErr Json :=
  match v with
  | Json.obj fields =>
    match lookupField k fields with
    | some w => Except.ok w
    | none => Except.error (PyErr.keyError k)
  | _ => Except.error PyErr.typeError

/-- Does the Json value equal the Python string `k`?  (Python `==` between a
`str` and any non-`str` is `False`.) -/
def isStrEq (k : String) : Json → Bool
  | Json.str s => s = k
  | _ => false

/-- Is `needle` a contiguous substring of `hay`? (Python `sub in str`.) -/
def hasSubstr (needle : List Char) : List Char → Bool
  | [] => needle.isEmpty
  | c :: rest => needle.isPrefixOf (c :: rest) || hasSubstr needle rest

/-- Python `k in v` for a string `k`: key test on a dict, substring test on a
str, `==`-membership on a list; `TypeError` on non-container types
("argument of type ... is not iterable"). -/
def pyContains (k : String) (v : Json) : Except PyErr Bool :=
  match v with
  | Json.obj fields => Except.ok (fields.any (fun kv => kv.1 = k))
  | Json.str s => Except.ok (hasSubstr k.data s.data)
  | Json.arr elems => Except.ok (elems.any (isStrEq k))
  | _ => Except.error PyErr.typeError

/-- Python `for x in v`: a list yields its elements, a dict its keys (in
insertion order), a str its characters (as 1-char strings); other types
raise `TypeError`. -/
def pyIter (v : Json) : Except PyErr (List Json) :=
  match v with
  | Json.arr elems => Except.ok elems
  | Json.obj fields => Except.ok (fields.map (fun kv => Json.str kv.1))
  | Json.str s => Except.ok (s.data.map (fun c => Json.str (String.mk [c])))
  | _ => Except.error PyErr.typeError

/-- `re.search` (and hence the extraction) requires a `str` argument;
any other type raises `TypeError`. -/
def asStr (v : Json) : Except PyErr String :=
  match v with
  | Json.str s => Except.ok s
  | _ => Except.error PyErr.typeError

/-- `int(  digit string  )`: the numeric value of a non-empty run of decimal
digits (returned as a Python `int`, here `Int`). -/
def digitsVal (ds : List Char) : Int :=
  Int.ofNat (ds.foldl (fun acc c => acc * 10 + (c.toNat - 48)) 0)

/-- One attempt of the pattern `/(\d+)/` anchored at the head of the
character list: a slash, a maximal non-empty run of digits (`\d+` is greedy,
and backtracking cannot help because a shorter run is followed by a digit,
not a slash), then a slash.  Returns the value of the digit group. -/
def matchSlashNumAt (cs : List Char) : Option Int :=
  match cs with
  | [] => none
  | c :: rest =>
    if c = '/' then
      let ds := rest.takeWhile Char.isDigit
      if ds.isEmpty then none
      else
        match rest.dropWhile Char.isDigit with
        | c' :: _ => if c' = '/' then some (digitsVal ds) else none
        | [] => none
    else none

/-- `re.search(r'/(\d+)/', s)`: the LEFTMOST position where the pattern
matches, scanning left to right. -/
def searchSlashNum : List Char → Option Int
  | [] => none
  | c :: rest =>
    match matchSlashNumAt (c :: rest) with
    | some n => some n
    | none => searchSlashNum rest

/-- `int(m.group(1))` for `m = re.search(r'/(\d+)/', url)`, `none` when
there is no match.  (The model restricts `\d` to ASCII digits.) -/
def re_search_id (url : String) : Option Int :=
  searchSlashNum url.data

/-- The diagnostics the two extraction functions print to stderr before
returning `[]`: the spec's `MalformedJson`, `MissingField`, `NoListWidget`. -/
inductive Diag where
  | malformedJson
  | missingField (key : String)
  | noListWidget
  deriving DecidableEq

/-- Observable outcome of one call to an extraction function:
`ret ids diag` = the function returned `ids`, having printed diagnostic
`diag` (or none); `crash` = an exception escaped the function. -/
inductive Res where
  | ret (ids : List Int) (diag : Option Diag)
  | crash
  deriving DecidableEq

/-- `json.loads(response_json)` inside the `try` block: a parse failure is
`json.JSONDecodeError`. -/
def parseStep (parsed : Except Unit Json) : Except PyErr Json :=
  match parsed with
  | Except.error _ => Except.error PyErr.jsonDecodeError
  | Except.ok j => Except.ok j

/-- The widget loop of `extract_product_ids_from_list` (lines 191-195):
scan the widgets in order, and on the first `widget` with
`'productList' in widget`, return `widget['productList']['products']`
(breaking out of the loop); `none` when no widget matches. -/
def findProducts : List Json → Except PyErr (Option Json)
  | [] => Except.ok none
  | w :: ws => do
    let b ← pyContains "productList" w
    if b then do
      let pl ← pyGetItem w "productList"
      let prods ← pyGetItem pl "products"
      pure (some prods)
    else
      findProducts ws

/-- The product loop shared by both extraction functions (lines 201-209 and
229-237): for each product take `product['url']`, run
`re.search(r'/(\d+)/', url)`, and append `int(match.group(1))` when it
matches, skipping the product otherwise. -/
def collectIds : List Json → Except PyErr (List Int)
  | [] => Except.ok []
  | p :: ps => do
    let urlv ← pyGetItem p "url"
    let url ← asStr urlv
    let rest ← collectIds ps
    match re_search_id url with
    | some n => pure (n :: rest)
    | none => pure rest

/-- `data['data']['page']['widgets']` traversal plus the widget loop of
`extract_product_ids_from_list`. -/
def listSelected (parsed : Except Unit Json) : Except PyErr (Option Json) := do
  let data ← parseStep parsed
  let dataField ← pyGetItem data "data"
  let page ← pyGetItem dataField "page"
  let widgetsJson ← pyGetItem page "widgets"
  let widgets ← pyIter widgetsJson
  findProducts widgets

/-- Body of the `try` block of `extract_product_ids_from_list`: the value
returned together with the diagnostic printed, or the exception raised. -/
def listBody (parsed : Except Unit Json) : Except PyErr (List Int × Option Diag) := do
  let products? ← listSelected parsed
  match products? with
  | none => pure ([], some Diag.noListWidget)
  | some productsJson => do
    let products ← pyIter productsJson
    let ids ← collectIds products
    pure (ids, none)

/-- `data['data']['search']['products']` traversal of
`extract_product_ids_from_search`, iterated into the product list. -/
def searchProducts (parsed : Except Unit Json) : Except PyErr (List Json) := do
  let data ← parseStep parsed
  let dataField ← pyGetItem data "data"
  let searchField ← pyGetItem dataField "search"
  let productsJson ← pyGetItem searchField "products"
  pyIter productsJson

/-- Body of the `try` block of `extract_product_ids_from_search`. -/
def searchBody (parsed : Except Unit Json) : Except PyErr (List Int × Option Diag) := do
  let products ← searchProducts parsed
  let ids ← collectIds products
  pure (ids, none)

/-- The `except (KeyError, IndexError, json.JSONDecodeError)` wrapper:
those exception classes are recovered into `return []` plus a printed
diagnostic (`JSONDecodeError` prints a malformed-JSON message, `KeyError`
a missing-key message); any other exception (`TypeError`) escapes. -/
def handle (body : Except PyErr (List Int × Option Diag)) : Res :=
  match body with
  | Except.ok (ids, diag) => Res.ret ids diag
  | Except.error PyErr.jsonDecodeError => Res.ret [] (some Diag.malformedJson)
  | Except.error (PyErr.keyError k) => Res.ret [] (some (Diag.missingField k))
  | Except.error PyErr.typeError => Res.crash

/-- `extract_product_ids_from_list` (lines 176-212). -/
def extract_product_ids_from_list (parsed : Except Unit Json) : Res :=
  handle (listBody parsed)

/-- `extract_product_ids_from_search` (lines 215-240). -/
def extract_product_ids_from_search (parsed : Except Unit Json) : Res :=
  handle (searchBody parsed)

/-- Python `s.startswith(pre)`: characterwise, case-sensitive prefix test.
(Characterwise helpers are used instead of `String.startsWith` and friends
because Python string operations are defined on character sequences.) -/
def strStartsWith (s pre : String) : Bool :=
  pre.data.isPrefixOf s.data

/-- Python `s.endswith(suf)`: characterwise suffix test. -/
def strEndsWith (s suf : String) : Bool :=
  suf.data.isSuffixOf s.data

/-- Python `s[n:]`: drop the first `n` characters. -/
def strDrop (s : String) (n : Nat) : String :=
  String.mk (s.data.drop n)

/-- Python `s[:-n]` for `n ≥ 1`: keep all but the last `n` characters. -/
def strDropRight (s : String) (n : Nat) : String :=
  String.mk (s.data.take (s.data.length - n))

/-- `is_url` (lines 243-245): literal, case-sensitive prefix check. -/
def is_url (input_str : String) : Bool :=
  strStartsWith input_str "http://" || strStartsWith input_str "https://"

/-- The two fields of `urllib.parse.urlparse` the code reads. -/
structure ParsedUrl where
  netloc : String
  path : String
  deriving DecidableEq

/-- Model of `urllib.parse.urlparse` restricted to the fields the code uses
(`netloc`, `path`) on `http://` / `https://` inputs: the netloc is what
follows the `//` up to the first `/`, `?` or `#`; the path is the rest up to
the first `?` or `#`. -/
def urlparse (input : String) : ParsedUrl :=
  let rest :=
    if strStartsWith input "https://" then strDrop input 8
    else if strStartsWith input "http://" then strDrop input 7
    else input
  let cs := rest.data
  let notDelim := fun (c : Char) => !(c == '/' || c == '?' || c == '#')
  let netloc := cs.takeWhile notDelim
  let after := cs.dropWhile notDelim
  let path := after.takeWhile (fun c => !(c == '?' || c == '#'))
  { netloc := String.mk netloc, path := String.mk path }

/-- Outcome of the input-classification step of `get_product_ids`:
URL mode with the derived subsite and listing path, search mode with the
verbatim term, or `sys.exit(1)` on an incomplete URL. -/
inductive Classified where
  | url (subsite : String) (listingPath : String)
  | searchTerm (term : String)
  | invalidInput
  deriving DecidableEq

/-- The input-classification step of `get_product_ids` (lines 263-291):
`is_url` decides the mode; in URL mode the host becomes the subsite and the
path, with a leading two-character `/c` stripped when the path starts with
`/c/` and one trailing `/` stripped, becomes the listing path; an empty
subsite or empty stripped path aborts the process (`sys.exit(1)`). -/
def classify (input : String) : Classified :=
  if is_url input then
    let parsed := urlparse input
    let url_subsite := parsed.netloc
    let p0 := parsed.path
    let p1 := if strStartsWith p0 "/c/" then strDrop p0 2 else p0
    let p2 := if strEndsWith p1 "/" then strDropRight p1 1 else p1
    if url_subsite.data.isEmpty || p2.data.isEmpty then Classified.invalidInput
    else Classified.url url_subsite p2
  else Classified.searchTerm input

/-- `get_search_query` (lines 141-171): the f-string template with the
filter scalars and the term interpolated verbatim (literal braces of the
GraphQL document are escaped here as hex). -/
def get_search_query (search_term : String) (limit : Int) (offset : Int)
    (currency : String) (shippingDestination : String) (sort : String) : String :=
  "query Search \x7b\n  search(\n    options: \x7b\n      currency: " ++ currency ++
  "\n      shippingDestination: " ++ shippingDestination ++
  "\n      limit: " ++ toString limit ++
  "\n      offset: " ++ toString offset ++
  "\n      sort: " ++ sort ++
  "\n      facets: []\n    \x7d\n    query: \"" ++ search_term ++
  "\"\n  ) \x7b\n    total\n    products \x7b\n      url\n    \x7d\n  \x7d\n\x7d"

/-- A product entry of a response: an object whose `url` field is a string. -/
def mkProduct (url : String) : Json :=
  Json.obj [("url", Json.str url)]

/-- A search response of the canonical shape with the given product URLs. -/
def mkSearchResponse (urls : List String) : Json :=
  Json.obj [("data", Json.obj [("search",
    Json.obj [("products", Json.arr (urls.map mkProduct))])])]

/-- A widget carrying a `productList` with the given product URLs. -/
def mkListWidget (urls : List String) : Json :=
  Json.obj [("productList", Json.obj [("products", Json.arr (urls.map mkProduct))])]

/-- A list response of the canonical shape with the given widgets. -/
def mkListResponse (widgets : List Json) : Json :=
  Json.obj [("data", Json.obj [("page",
    Json.obj [("widgets", Json.arr widgets)])])]

/-- Does the value carry the key, in the sense of being an object with that
key among its fields? -/
def hasKey (k : String) : Json → Bool
  | Json.obj fields => fields.any (fun kv => kv.1 = k)
  | _ => false

/-- Modelled from the spec: "a `ProductReference.identifier` must be the
LAST group of digits in the path segment of `sourceUrl` matched by pattern
`/(\d+)/`" — the rightmost position where the pattern matches. -/
def lastSlashNum : List Char → Option Int
  | [] => none
  | c :: rest =>
    match lastSlashNum rest with
    | some n => some n
    | none => matchSlashNumAt (c :: rest)

/-- The identifier required by the spec's invariant: the last `/digits/`
group of the URL. -/
def spec_last_id (url : String) : Option Int :=
  lastSlashNum url.data

/-- The id one product entry contributes on the success path: the first
`/digits/` group of its `url` string field, when both exist. -/
def prodId (p : Json) : Option Int :=
  match pyGetItem p "url" with
  | Except.ok (Json.str u) => re_search_id u
  | _ => none


/-! ### Helper lemmas -/

theorem collectIds_mkProducts (urls : List String) :
    collectIds (urls.map mkProduct) = Except.ok (urls.filterMap re_search_id) := by
  induction urls with
  | nil => rfl
  | cons u us ih =>
    simp [List.filterMap_cons, collectIds, mkProduct, pyGetItem,
      lookupField, bind, Except.bind, asStr, ih]
    cases re_search_id u <;> rfl

theorem searchProducts_mk (urls : List String) :
    searchProducts (Except.ok (mkSearchResponse urls)) =
      Except.ok (urls.map mkProduct) := rfl

theorem listSelected_mk (ws : List Json) :
    listSelected (Except.ok (mkListResponse ws)) = findProducts ws := rfl

theorem extract_search_mk (urls : List String) :
    extract_product_ids_from_search (Except.ok (mkSearchResponse urls)) =
      Res.ret (urls.filterMap re_search_id) none := by
  simp only [extract_product_ids_from_search, searchBody, bind, Except.bind,
    searchProducts_mk, collectIds_mkProducts]
  rfl

theorem extract_list_mk1 (urls : List String) :
    extract_product_ids_from_list (Except.ok (mkListResponse [mkListWidget urls])) =
      Res.ret (urls.filterMap re_search_id) none := by
  simp only [extract_product_ids_from_list, listBody, bind, Except.bind, listSelected_mk]
  have h1 : findProducts [mkListWidget urls] =
      Except.ok (some (Json.arr (urls.map mkProduct))) := by
    simp [findProducts, pyContains, mkListWidget, bind, Except.bind, pyGetItem, lookupField,
      pure, Except.pure]
  rw [h1]
  simp only [pyIter, collectIds_mkProducts]
  rfl



theorem findProducts_append_of_nomatch (pre l : List Json)
    (h : ∀ x ∈ pre, pyContains "productList" x = Except.ok false) :
    findProducts (pre ++ l) = findProducts l := by
  induction pre with
  | nil => rfl
  | cons w ws ih =>
    have hw := h w (List.mem_cons_self w ws)
    have hws : ∀ x ∈ ws, pyContains "productList" x = Except.ok false :=
      fun x hx => h x (List.mem_cons_of_mem w hx)
    simp only [List.cons_append, findProducts, hw, bind, Except.bind]
    simpa using ih hws

theorem findProducts_cons_match_irrel (w : Json) (post post' : List Json)
    (hw : pyContains "productList" w = Except.ok true) :
    findProducts (w :: post) = findProducts (w :: post') := by
  simp only [findProducts, hw, bind, Except.bind, if_pos]

theorem findProducts_none_of_all_false (ws : List Json)
    (h : ∀ w ∈ ws, pyContains "productList" w = Except.ok false) :
    findProducts ws = Except.ok none := by
  have := findProducts_append_of_nomatch ws [] h
  simpa using this



theorem collectIds_eq_filterMap (ps : List Json) (ids : List Int)
    (h : collectIds ps = Except.ok ids) : ids = ps.filterMap prodId := by
  induction ps generalizing ids with
  | nil =>
    simp only [collectIds] at h
    cases h
    rfl
  | cons p ps ih =>
    simp only [collectIds, bind, Except.bind] at h
    cases hurl : pyGetItem p "url" with
    | error e => rw [hurl] at h; exact absurd h (by simp)
    | ok v =>
      rw [hurl] at h
      cases v with
      | str u =>
        simp only [asStr] at h
        cases hrest : collectIds ps with
        | error e => rw [hrest] at h; exact absurd h (by simp)
        | ok rest =>
          rw [hrest] at h
          have htail := ih rest hrest
          simp only [List.filterMap_cons, prodId, hurl]
          cases hre : re_search_id u <;>
            simp only [hre, pure, Except.pure, Except.ok.injEq] at h <;>
            simp [← h, htail]
      | null => exact absurd h (by simp [asStr])
      | bool b => exact absurd h (by simp [asStr])
      | num n => exact absurd h (by simp [asStr])
      | arr es => exact absurd h (by simp [asStr])
      | obj fs => exact absurd h (by simp [asStr])

theorem matchSlashNumAt_nonneg (cs : List Char) (n : Int)
    (h : matchSlashNumAt cs = some n) : 0 ≤ n := by
  cases cs with
  | nil => exact absurd h (by simp [matchSlashNumAt])
  | cons c rest =>
    simp only [matchSlashNumAt] at h
    split at h
    · split at h
      · exact absurd h (by simp)
      · split at h
        · split at h
          · cases h
            exact Int.ofNat_nonneg _
          · exact absurd h (by simp)
        · exact absurd h (by simp)
    · exact absurd h (by simp)

theorem searchSlashNum_nonneg (cs : List Char) (n : Int)
    (h : searchSlashNum cs = some n) : 0 ≤ n := by
  induction cs with
  | nil => exact absurd h (by simp [searchSlashNum])
  | cons c rest ih =>
    simp only [searchSlashNum] at h
    cases hm : matchSlashNumAt (c :: rest) with
    | some m =>
      rw [hm] at h
      cases h
      exact matchSlashNumAt_nonneg _ _ hm
    | none =>
      rw [hm] at h
      exact ih h

theorem re_search_id_nonneg (u : String) (n : Int)
    (h : re_search_id u = some n) : 0 ≤ n :=
  searchSlashNum_nonneg u.data n h

theorem prodId_nonneg (p : Json) (n : Int) (h : prodId p = some n) : 0 ≤ n := by
  simp only [prodId] at h
  split at h
  · exact re_search_id_nonneg _ _ h
  · exact absurd h (by simp)

theorem collectIds_nonneg (ps : List Json) (ids : List Int)
    (h : collectIds ps = Except.ok ids) : ∀ i ∈ ids, 0 ≤ i := by
  intro i hi
  rw [collectIds_eq_filterMap ps ids h] at hi
  rcases List.mem_filterMap.mp hi with ⟨p, _, hp⟩
  exact prodId_nonneg p i hp



theorem listBody_ok_cases (parsed : Except Unit Json) (ids : List Int) (diag : Option Diag)
    (h : listBody parsed = Except.ok (ids, diag)) :
    ids = [] ∨ ∃ ps, collectIds ps = Except.ok ids := by
  simp only [listBody, bind, Except.bind] at h
  cases hsel : listSelected parsed with
  | error e => rw [hsel] at h; exact absurd h (by simp)
  | ok products? =>
    rw [hsel] at h
    cases products? with
    | none =>
      dsimp only at h
      simp only [pure, Except.pure, Except.ok.injEq, Prod.mk.injEq] at h
      exact Or.inl h.1.symm
    | some pj =>
      dsimp only at h
      cases hit : pyIter pj with
      | error e => rw [hit] at h; exact absurd h (by simp)
      | ok ps =>
        rw [hit] at h
        dsimp only at h
        cases hc : collectIds ps with
        | error e => rw [hc] at h; exact absurd h (by simp)
        | ok ids' =>
          rw [hc] at h
          dsimp only at h
          simp only [pure, Except.pure, Except.ok.injEq, Prod.mk.injEq] at h
          exact Or.inr ⟨ps, by rw [hc, h.1]⟩

theorem searchBody_ok_cases (parsed : Except Unit Json) (ids : List Int) (diag : Option Diag)
    (h : searchBody parsed = Except.ok (ids, diag)) :
    ∃ ps, collectIds ps = Except.ok ids := by
  simp only [searchBody, bind, Except.bind] at h
  cases hsel : searchProducts parsed with
  | error e => rw [hsel] at h; exact absurd h (by simp)
  | ok ps =>
    rw [hsel] at h
    dsimp only at h
    cases hc : collectIds ps with
    | error e => rw [hc] at h; exact absurd h (by simp)
    | ok ids' =>
      rw [hc] at h
      dsimp only at h
      simp only [pure, Except.pure, Except.ok.injEq, Prod.mk.injEq] at h
      exact ⟨ps, by rw [hc, h.1]⟩

theorem handle_ret (body : Except PyErr (List Int × Option Diag)) (ids : List Int)
    (diag : Option Diag) (h : handle body = Res.ret ids diag) :
    body = Except.ok (ids, diag) ∨ ids = [] := by
  cases body with
  | ok p =>
    cases p with
    | mk a b => simp only [handle, Res.ret.injEq] at h; exact Or.inl (by rw [h.1, h.2])
  | error e =>
    cases e with
    | keyError k =>
      simp only [handle, Res.ret.injEq] at h
      exact Or.inr h.1.symm
    | typeError => exact absurd h (by simp [handle])
    | jsonDecodeError =>
      simp only [handle, Res.ret.injEq] at h
      exact Or.inr h.1.symm

theorem handle_ret_none (body : Except PyErr (List Int × Option Diag)) (ids : List Int)
    (h : handle body = Res.ret ids none) : body = Except.ok (ids, none) := by
  cases body with
  | ok p =>
    cases p with
    | mk a b =>
      simp only [handle, Res.ret.injEq] at h
      rw [h.1, h.2]
  | error e =>
    cases e with
    | keyError k =>
      simp only [handle, Res.ret.injEq] at h
      exact absurd h.2 (by simp)
    | typeError => exact absurd h (by simp [handle])
    | jsonDecodeError =>
      simp only [handle, Res.ret.injEq] at h
      exact absurd h.2 (by simp)

theorem filterMap_length_of_isSome {α β : Type} (f : α → Option β) (l : List α)
    (h : ∀ a ∈ l, (f a).isSome) : (l.filterMap f).length = l.length := by
  induction l with
  | nil => rfl
  | cons a l ih =>
    have ha := h a (List.mem_cons_self a l)
    cases hf : f a with
    | none => rw [hf] at ha; exact absurd ha (by simp)
    | some b =>
      simp only [List.filterMap_cons, hf, List.length_cons]
      rw [ih (fun x hx => h x (List.mem_cons_of_mem a hx))]



/-! ### Claims -/

/-- C1, counterexample: for the product URL `/p/2023/whey/10530943/` the
code emits `2023` — the FIRST `/digits/` group found by `re.search` — while
the claimed invariant (identifier = LAST group of digits matched by
`/(\d+)/`) demands `10530943`. -/
theorem c1_last_group_counterexample :
    extract_product_ids_from_search
      (Except.ok (mkSearchResponse ["/p/2023/whey/10530943/"])) = Res.ret [2023] none ∧
    spec_last_id "/p/2023/whey/10530943/" = some 10530943 ∧
    (2023 : Int) ≠ 10530943 := by
  refine ⟨by decide, by decide, by decide⟩

/-- C1, amended: for every product entry in a list or search response the
extracted identifier is the value of the FIRST (leftmost) group of digits in
the URL matched by `/(\d+)/`; an entry whose URL has no `/digits/` segment
is dropped silently (no error reported, never defaulted to zero), and no
reference is partially emitted. -/
theorem c1_first_group_extraction (urls : List String) :
    extract_product_ids_from_search (Except.ok (mkSearchResponse urls)) =
      Res.ret (urls.filterMap re_search_id) none ∧
    extract_product_ids_from_list (Except.ok (mkListResponse [mkListWidget urls])) =
      Res.ret (urls.filterMap re_search_id) none :=
  ⟨extract_search_mk urls, extract_list_mk1 urls⟩

/-- C3: when the widgets before `w` do not pass the `'productList' in widget`
test, `w` passes it, and at least one later widget also passes it, the
extraction result is unchanged by deleting everything after `w`: ids are
taken only from the first matching widget, later matching widgets are
ignored. -/
theorem c3_first_widget_wins (pre : List Json) (w : Json) (post : List Json)
    (hpre : ∀ x ∈ pre, pyContains "productList" x = Except.ok false)
    (hw : pyContains "productList" w = Except.ok true)
    (hpost : ∃ w' ∈ post, pyContains "productList" w' = Except.ok true) :
    extract_product_ids_from_list (Except.ok (mkListResponse (pre ++ w :: post))) =
    extract_product_ids_from_list (Except.ok (mkListResponse (pre ++ [w]))) := by
  have h1 : findProducts (pre ++ w :: post) = findProducts (pre ++ [w]) := by
    rw [findProducts_append_of_nomatch pre _ hpre,
        findProducts_append_of_nomatch pre _ hpre]
    exact findProducts_cons_match_irrel w post [] hw
  simp only [extract_product_ids_from_list, listBody, listSelected_mk, h1]

/-- C3, witness: a non-matching widget, then two matching widgets. -/
theorem c3_first_widget_wins_witness :
    extract_product_ids_from_list (Except.ok (mkListResponse
      ([Json.obj []] ++ mkListWidget ["/a/1/"] :: [mkListWidget ["/b/2/"]]))) =
    extract_product_ids_from_list (Except.ok (mkListResponse
      ([Json.obj []] ++ [mkListWidget ["/a/1/"]]))) :=
  c3_first_widget_wins [Json.obj []] (mkListWidget ["/a/1/"]) [mkListWidget ["/b/2/"]]
    (by intro x hx; rw [List.mem_singleton] at hx; subst hx; rfl)
    (by rfl)
    ⟨mkListWidget ["/b/2/"], List.mem_singleton.mpr rfl, by rfl⟩

/-- C4, counterexample: the claimed listing path `"nutrition/protein"` is
wrong — the code strips only the two characters `/c`, keeping the following
slash. -/
theorem c4_listing_path_counterexample :
    classify "https://www.myprotein.com/c/nutrition/protein/" ≠
      Classified.url "www.myprotein.com" "nutrition/protein" := by
  decide

/-- C4, amended: classifying `https://www.myprotein.com/c/nutrition/protein/`
yields a URL result with subsite `www.myprotein.com` and listing path
`/nutrition/protein`: stripping the two-character `/c` prefix keeps the
slash that follows it, and one trailing slash is stripped. -/
theorem c4_classify_category_url :
    classify "https://www.myprotein.com/c/nutrition/protein/" =
      Classified.url "www.myprotein.com" "/nutrition/protein" := by
  decide

/-- C5, counterexample: a single-widget list response whose one product URL
`/p/2023/whey/10530943/` ends in the well-formed trailing segment
`/10530943/` produces `[2023]` (the leftmost `/digits/` group), not the
trailing ids `[10530943]`. -/
theorem c5_trailing_id_counterexample :
    extract_product_ids_from_list
      (Except.ok (mkListResponse [mkListWidget ["/p/2023/whey/10530943/"]])) =
      Res.ret [2023] none ∧
    Res.ret ([2023] : List Int) none ≠ Res.ret [10530943] none := by
  refine ⟨by decide, by decide⟩

/-- C5, amended: for every list response whose widgets sequence carries
exactly one widget with a `productList` key — at any position, amid sibling
widgets, provided the siblings before it support Python's membership test
without passing it (object siblings without the key; a non-container
sibling before it instead raises an uncaught `TypeError`, as in C6) — and
whose N products all have URLs containing a well-formed `/digits/` segment,
the function returns exactly N integers, in URL order, each the value of
the FIRST such segment of its URL.  The widgets after the matching one are
arbitrary: the loop breaks before reaching them. -/
theorem c5_single_widget_extraction (pre post : List Json) (urls : List String)
    (hpre : ∀ x ∈ pre, pyContains "productList" x = Except.ok false)
    (hpost : ∀ x ∈ post, hasKey "productList" x = false)
    (hall : ∀ u ∈ urls, (re_search_id u).isSome) :
    extract_product_ids_from_list
      (Except.ok (mkListResponse (pre ++ mkListWidget urls :: post))) =
      Res.ret (urls.filterMap re_search_id) none ∧
    (urls.filterMap re_search_id).length = urls.length := by
  refine ⟨?_, filterMap_length_of_isSome _ _ hall⟩
  have h1 : findProducts (pre ++ mkListWidget urls :: post) =
      Except.ok (some (Json.arr (urls.map mkProduct))) := by
    rw [findProducts_append_of_nomatch pre _ hpre]
    simp [findProducts, pyContains, mkListWidget, bind, Except.bind, pyGetItem,
      lookupField, pure, Except.pure]
  simp only [extract_product_ids_from_list, listBody, bind, Except.bind, listSelected_mk, h1]
  simp only [pyIter, collectIds_mkProducts]
  rfl

/-- C5, witness: an object widget without the key before the matching
widget, a number widget after it, two products with ids 11 and 22. -/
theorem c5_single_widget_extraction_witness :
    extract_product_ids_from_list
      (Except.ok (mkListResponse
        ([Json.obj [("banner", Json.null)]] ++
          mkListWidget ["/p/a/11/", "/p/b/22/"] :: [Json.num 5]))) =
      Res.ret (["/p/a/11/", "/p/b/22/"].filterMap re_search_id) none ∧
    (["/p/a/11/", "/p/b/22/"].filterMap re_search_id).length =
      (["/p/a/11/", "/p/b/22/"] : List String).length :=
  c5_single_widget_extraction [Json.obj [("banner", Json.null)]] [Json.num 5]
    ["/p/a/11/", "/p/b/22/"]
    (by intro x hx; rw [List.mem_singleton] at hx; subst hx; rfl)
    (by intro x hx; rw [List.mem_singleton] at hx; subst hx; rfl)
    (by decide)

/-- C6, counterexample: a widgets list whose only element is the number `5`
carries no `productList` key anywhere, yet the function does not return
`[]` with the `NoListWidget` diagnostic — `'productList' in 5` raises an
uncaught `TypeError`. -/
theorem c6_nonobject_widget_counterexample :
    hasKey "productList" (Json.num 5) = false ∧
    extract_product_ids_from_list (Except.ok (mkListResponse [Json.num 5])) =
      Res.crash :=
  ⟨rfl, rfl⟩

/-- C6, amended: for every list response whose widgets all support Python's
membership test and none passes it (in particular, all-object widget lists
in which no object carries a `productList` key), the function returns an
empty sequence and signals the `NoListWidget` diagnostic, without hard
failure. -/
theorem c6_no_list_widget (ws : List Json)
    (h : ∀ w ∈ ws, pyContains "productList" w = Except.ok false) :
    extract_product_ids_from_list (Except.ok (mkListResponse ws)) =
      Res.ret [] (some Diag.noListWidget) := by
  simp only [extract_product_ids_from_list, listBody, listSelected_mk,
    findProducts_none_of_all_false ws h]
  rfl

/-- C6, witness: one object widget without the key. -/
theorem c6_no_list_widget_witness :
    extract_product_ids_from_list
      (Except.ok (mkListResponse [Json.obj [("foo", Json.null)]])) =
      Res.ret [] (some Diag.noListWidget) :=
  c6_no_list_widget [Json.obj [("foo", Json.null)]]
    (by intro w hw; rw [List.mem_singleton] at hw; subst hw; rfl)

theorem ite_classified_ne_searchTerm (c : Bool) (a b t : String) :
    (if c = true then Classified.invalidInput else Classified.url a b) ≠
      Classified.searchTerm t := by
  cases c <;> intro hc <;> exact Classified.noConfusion hc

/-- C7: a string is treated as a URL exactly when it starts with the
case-sensitive prefix `http://` or `https://`; any other string (including
uppercase-scheme variants) is classified verbatim as a search term, and a
prefixed string is never classified as a search term. -/
theorem c7_url_classification (s : String) :
    is_url s = (strStartsWith s "http://" || strStartsWith s "https://") ∧
    (is_url s = false → classify s = Classified.searchTerm s) ∧
    (is_url s = true → ∀ t, classify s ≠ Classified.searchTerm t) := by
  refine ⟨rfl, ?_, ?_⟩
  · intro h
    simp [classify, h]
  · intro h t
    unfold classify
    rw [if_pos h]
    exact ite_classified_ne_searchTerm _ _ _ t

/-- C7, witness: a free-text term and an uppercase-scheme string are both
classified verbatim as search terms. -/
theorem c7_url_classification_witness :
    classify "whey protein" = Classified.searchTerm "whey protein" ∧
    classify "HTTP://EXAMPLE.COM/c/x/" =
      Classified.searchTerm "HTTP://EXAMPLE.COM/c/x/" :=
  ⟨(c7_url_classification "whey protein").2.1 (by decide),
   (c7_url_classification "HTTP://EXAMPLE.COM/c/x/").2.1 (by decide)⟩

/-- C8: building the search query for term `creatine` with limit 10 yields
the expected GraphQL document, and normalizing a synthetic response with two
product URLs embedding ids 111 and 222 yields `[111, 222]`. -/
theorem c8_search_round_trip :
    get_search_query "creatine" 10 0 "GBP" "GB" "RELEVANCE" =
      "query Search \x7b\n  search(\n    options: \x7b\n      currency: GBP\n      shippingDestination: GB\n      limit: 10\n      offset: 0\n      sort: RELEVANCE\n      facets: []\n    \x7d\n    query: \"creatine\"\n  ) \x7b\n    total\n    products \x7b\n      url\n    \x7d\n  \x7d\n\x7d" ∧
    extract_product_ids_from_search
      (Except.ok (mkSearchResponse ["/p/sports/item-a/111/", "/p/sports/item-b/222/"])) =
      Res.ret [111, 222] none := by
  refine ⟨by rfl, by decide⟩

/-- C9, counterexample: the URL `/whey/0/` makes the search extractor emit
the identifier `0`, which is not a positive integer. -/
theorem c9_zero_id_counterexample :
    extract_product_ids_from_search (Except.ok (mkSearchResponse ["/whey/0/"])) =
      Res.ret [0] none ∧ ¬ ((0 : Int) > 0) := by
  refine ⟨by decide, by decide⟩

/-- C9, amended: every identifier in a sequence returned by either
extraction function is a NON-NEGATIVE integer (it is the value of a digit
group, which can be zero), for every input response. -/
theorem c9_ids_nonneg (parsed : Except Unit Json) (ids : List Int) (diag : Option Diag)
    (h : extract_product_ids_from_list parsed = Res.ret ids diag ∨
         extract_product_ids_from_search parsed = Res.ret ids diag) :
    ∀ i ∈ ids, 0 ≤ i := by
  rcases h with h | h
  · simp only [extract_product_ids_from_list] at h
    rcases handle_ret _ _ _ h with hb | hnil
    · rcases listBody_ok_cases parsed ids diag hb with hnil | ⟨ps, hc⟩
      · subst hnil; intro i hi; cases hi
      · exact collectIds_nonneg ps ids hc
    · subst hnil; intro i hi; cases hi
  · simp only [extract_product_ids_from_search] at h
    rcases handle_ret _ _ _ h with hb | hnil
    · rcases searchBody_ok_cases parsed ids diag hb with ⟨ps, hc⟩
      exact collectIds_nonneg ps ids hc
    · subst hnil; intro i hi; cases hi

/-- C9, witness: the id 111 extracted from a concrete response is
non-negative. -/
theorem c9_ids_nonneg_witness : (0 : Int) ≤ 111 :=
  c9_ids_nonneg (Except.ok (mkSearchResponse ["/a/111/"])) [111] none
    (Or.inr (by decide)) 111 (by decide)

/-- C10: whenever extraction succeeds with no diagnostic, the returned id
sequence is the order-preserving projection `filterMap prodId` of the
selected products array — each id comes from one product entry, ids appear
in source order, and the length never exceeds the number of entries. -/
theorem c10_order_preserving_projection (parsed : Except Unit Json) (ids : List Int)
    (prods : List Json) :
    (searchProducts parsed = Except.ok prods →
      extract_product_ids_from_search parsed = Res.ret ids none →
      ids = prods.filterMap prodId ∧ ids.length ≤ prods.length) ∧
    (∀ pj, listSelected parsed = Except.ok (some pj) →
      pyIter pj = Except.ok prods →
      extract_product_ids_from_list parsed = Res.ret ids none →
      ids = prods.filterMap prodId ∧ ids.length ≤ prods.length) := by
  constructor
  · intro hsel hret
    simp only [extract_product_ids_from_search] at hret
    have hb := handle_ret_none _ _ hret
    have hc : collectIds prods = Except.ok ids := by
      simp only [searchBody, bind, Except.bind, hsel] at hb
      cases hcc : collectIds prods with
      | error e => rw [hcc] at hb; exact absurd hb (by simp)
      | ok ids' =>
        rw [hcc] at hb
        simp only [pure, Except.pure, Except.ok.injEq, Prod.mk.injEq] at hb
        rw [hb.1]
    have heq := collectIds_eq_filterMap prods ids hc
    exact ⟨heq, by rw [heq]; exact List.length_filterMap_le _ _⟩
  · intro pj hsel hit hret
    simp only [extract_product_ids_from_list] at hret
    have hb := handle_ret_none _ _ hret
    simp only [listBody, bind, Except.bind] at hb
    rw [hsel] at hb
    dsimp only at hb
    rw [hit] at hb
    dsimp only at hb
    have hc : collectIds prods = Except.ok ids := by
      cases hcc : collectIds prods with
      | error e => rw [hcc] at hb; exact absurd hb (by simp)
      | ok ids' =>
        rw [hcc] at hb
        dsimp only at hb
        simp only [pure, Except.pure, Except.ok.injEq, Prod.mk.injEq] at hb
        rw [hb.1]
    have heq := collectIds_eq_filterMap prods ids hc
    exact ⟨heq, by rw [heq]; exact List.length_filterMap_le _ _⟩

/-- C10, witness: a concrete successful extraction projected from one
product entry. -/
theorem c10_order_preserving_projection_witness :
    [(7 : Int)] = [mkProduct "/x/7/"].filterMap prodId ∧
    [(7 : Int)].length ≤ [mkProduct "/x/7/"].length :=
  (c10_order_preserving_projection (Except.ok (mkSearchResponse ["/x/7/"]))
      [7] [mkProduct "/x/7/"]).1 (by rfl) (by decide)

end HorizonFetcher
